import Mathlib

/-!
Verification development for the acg-server-monitor repository.

The Go source is shallowly embedded: float64 quantities are modelled as
exact rationals, uint64 counters as naturals reduced modulo 2^64 where the
code performs unsigned arithmetic, the gopsutil sensor calls and the GORM
store as explicit inputs, and the alert table as a list of records in
insertion order.  Go math.Round rounds half away from zero and the Lean
round function rounds half up; the two agree on the nonnegative values
that occur throughout this code, which is noted where relevant.
-/

set_option allowUnsafeReducibility true
attribute [semireducible] Rat.add Rat.sub Rat.mul Rat.inv

deriving instance DecidableEq for Except

namespace ServerMonitor

/-- Floor of a rational number, computed from its numerator and
denominator with flooring integer division. -/
def ratFloor (x : ℚ) : ℤ := Int.fdiv x.num x.den

/-- Go math.Round: round half away from zero.  (Every value this code
rounds is nonnegative, where this agrees with rounding half up.) -/
def goRound (x : ℚ) : ℤ :=
  if x < 0 then -(ratFloor (-x + 1 / 2)) else ratFloor (x + 1 / 2)

/-- Go expression math.Round(x * 100) / 100, used everywhere the code
rounds a percentage or a rate to two decimal places. -/
def round2 (x : ℚ) : ℚ := (goRound (x * 100) : ℚ) / 100

/-- The modulus of the Go uint64 type. -/
def U64 : ℕ := 2 ^ 64

/-- Go uint64 subtraction a - b: wraps modulo 2^64 when b exceeds a. -/
def sub64 (a b : ℕ) : ℕ := (a % U64 + U64 - b % U64) % U64

/-- Go uint64 addition a + b, modulo 2^64. -/
def add64 (a b : ℕ) : ℕ := (a + b) % U64

/-- The fields of gopsutil net.IOCountersStat that getNetworkSpeed reads:
interface name and the cumulative sent and received byte counters. -/
structure IOCountersStat where
  name : String
  bytesSent : ℕ
  bytesRecv : ℕ
deriving DecidableEq

/-- The mutable state of monitor.SystemMonitor: the map of last seen
per-interface counters and the time of the previous reading.  The Go map
is modelled as an association list; insertion order is irrelevant to the
code, which only ever looks entries up by key. -/
structure SystemMonitor where
  lastNetworkStats : List (String × IOCountersStat)
  lastNetworkTime : ℚ
deriving DecidableEq

/-- Go map read m[k] with its ok flag, on the association-list model. -/
def lookupStat (m : List (String × IOCountersStat)) (k : String) :
    Option IOCountersStat :=
  match m with
  | [] => none
  | (k', v) :: rest => if k' = k then some v else lookupStat rest k

/-- Go map assignment m[k] = v on the association-list model: overwrite
the entry for k when present, otherwise append a fresh entry. -/
def insertStat (m : List (String × IOCountersStat)) (k : String)
    (v : IOCountersStat) : List (String × IOCountersStat) :=
  match m with
  | [] => [(k, v)]
  | (k', v') :: rest =>
      if k' = k then (k, v) :: rest else (k', v') :: insertStat rest k v

/-- The loop of getNetworkSpeed over the current readings: for each stat,
when the interface already has a recorded last sample, accumulate the
uint64 counter differences; in every case overwrite the recorded sample
for that interface with the current one. -/
def netLoop (stats : List IOCountersStat)
    (m : List (String × IOCountersStat)) (up down : ℕ) :
    List (String × IOCountersStat) × ℕ × ℕ :=
  match stats with
  | [] => (m, up, down)
  | stat :: rest =>
      match lookupStat m stat.name with
      | some lastStat =>
          netLoop rest (insertStat m stat.name stat)
            (add64 up (sub64 stat.bytesSent lastStat.bytesSent))
            (add64 down (sub64 stat.bytesRecv lastStat.bytesRecv))
      | none => netLoop rest (insertStat m stat.name stat) up down

/-- SystemMonitor.getNetworkSpeed.  The net.IOCounters call is an input:
either its error or the list of readings.  On a counter-read error the
error is propagated and the state is untouched; on a zero elapsed time
the call fails with the degenerate-interval error before touching the
state; otherwise the loop runs, both totals are converted to MB/s by
dividing by 1024 * 1024 * timeDiff, rounded to two decimals, and the
previous-time field is replaced by the current time. -/
def getNetworkSpeed (sm : SystemMonitor)
    (ioCounters : Except String (List IOCountersStat)) (now : ℚ) :
    Except String (ℚ × ℚ) × SystemMonitor :=
  match ioCounters with
  | .error e => (.error e, sm)
  | .ok netStats =>
      let timeDiff := now - sm.lastNetworkTime
      if timeDiff = 0 then (.error "time difference is zero", sm)
      else
        let r := netLoop netStats sm.lastNetworkStats 0 0
        let uploadSpeed := (r.2.1 : ℚ) / (1024 * 1024 * timeDiff)
        let downloadSpeed := (r.2.2 : ℚ) / (1024 * 1024 * timeDiff)
        (.ok (round2 uploadSpeed, round2 downloadSpeed),
         ⟨r.1, now⟩)

/-- The models.SystemMetrics record as filled in by CollectSystemMetrics. -/
structure SystemMetrics where
  timestamp : ℚ
  cpu : ℚ
  memory : ℚ
  disk : ℚ
  upload : ℚ
  download : ℚ
deriving DecidableEq

/-- The sensor environment of one CollectSystemMetrics call: the outcome
of each gopsutil call it makes.  Partitions are identified by their
mountpoint, the only field the code reads; diskUsage gives the outcome of
disk.Usage per mountpoint, of which the code reads UsedPercent. -/
structure MetricsEnv where
  cpuPercent : Except String (List ℚ)
  memUsedPercent : Except String ℚ
  partitions : Except String (List String)
  diskUsage : String → Except String ℚ
  ioCounters : Except String (List IOCountersStat)
  now : ℚ

/-- The partition loop of CollectSystemMetrics: partitions whose usage
lookup fails are skipped; for the others the used percent is added to the
running total and the partition count is incremented. -/
def diskLoop (usage : String → Except String ℚ) (ps : List String)
    (totalUsage : ℚ) (partitionCount : ℕ) : ℚ × ℕ :=
  match ps with
  | [] => (totalUsage, partitionCount)
  | p :: rest =>
      match usage p with
      | .error _ => diskLoop usage rest totalUsage partitionCount
      | .ok u => diskLoop usage rest (totalUsage + u) (partitionCount + 1)

/-- SystemMonitor.CollectSystemMetrics.  Every failing sub-measurement is
substituted by the zero value of the field; the function itself always
returns the record together with a nil error (the Option String component
is the Go error return, literally nil in the source).  The third
component is the SystemMonitor state after the embedded getNetworkSpeed
call. -/
def collectSystemMetrics (sm : SystemMonitor) (env : MetricsEnv) :
    SystemMetrics × Option String × SystemMonitor :=
  let cpu : ℚ :=
    match env.cpuPercent with
    | .error _ => 0
    | .ok l =>
        match l with
        | [] => 0
        | x :: _ => round2 x
  let memory : ℚ :=
    match env.memUsedPercent with
    | .error _ => 0
    | .ok u => round2 u
  let disk : ℚ :=
    match env.partitions with
    | .error _ => 0
    | .ok ps =>
        let r := diskLoop env.diskUsage ps 0 0
        if 0 < r.2 then round2 (r.1 / (r.2 : ℚ)) else 0
  let net := getNetworkSpeed sm env.ioCounters env.now
  let upload : ℚ :=
    match net.1 with
    | .error _ => 0
    | .ok p => p.1
  let download : ℚ :=
    match net.1 with
    | .error _ => 0
    | .ok p => p.2
  (⟨env.now, cpu, memory, disk, upload, download⟩, none, net.2)

/-- The three alert types CheckAlerts evaluates (the Type column of the
models.Alert table). -/
inductive AlertKind
  | cpu
  | memory
  | disk
deriving DecidableEq, Fintype

/-- The Status column of a models.Alert row. -/
inductive AlertStatus
  | active
  | resolved
deriving DecidableEq

/-- A models.Alert row with the fields CheckAlerts reads and writes:
type, current value, threshold, status.  (Level, message and timestamps
carry no decision logic.) -/
structure Alert where
  typ : AlertKind
  value : ℚ
  threshold : ℚ
  status : AlertStatus
deriving DecidableEq

/-- The state changes CheckAlerts writes for a kind: a new active alert
row together with its warning log (creation), or the flip of the active
row to resolved together with its info log (resolution).  The
update-in-place path writes neither a new row nor a log, so it emits no
event. -/
inductive AlertEvent
  | created (kind : AlertKind) (value : ℚ)
  | resolvedAt (kind : AlertKind) (value : ℚ)
deriving DecidableEq

/-- The GORM query Where(type, active).First on the alert table: the
first row in insertion order of that kind with status active. -/
def findActive (kind : AlertKind) : List Alert → Option Alert
  | [] => none
  | a :: rest =>
      if a.typ = kind ∧ a.status = AlertStatus.active then some a
      else findActive kind rest

/-- The GORM Save of the row fetched by findActive: rewrite the first
row of the given kind with status active using f, leaving the rest of
the table unchanged. -/
def updateFirstActive (kind : AlertKind) (f : Alert → Alert) :
    List Alert → List Alert
  | [] => []
  | a :: rest =>
      if a.typ = kind ∧ a.status = AlertStatus.active then f a :: rest
      else a :: updateFirstActive kind f rest

/-- One threshold block of CheckAlerts for one kind: when the value
exceeds the threshold, create a new active row if no active row of that
kind exists (emitting a creation event), otherwise update the current
value of the existing active row in place (no event); when the value
does not exceed the threshold, flip the active row, if any, to resolved
(emitting a resolution event, with the current sample value carried in
the log), otherwise do nothing. -/
def checkAlertKind (kind : AlertKind) (value threshold : ℚ)
    (store : List Alert) : List Alert × List AlertEvent :=
  if threshold < value then
    match findActive kind store with
    | none =>
        (store ++ [⟨kind, value, threshold, AlertStatus.active⟩],
         [AlertEvent.created kind value])
    | some _ =>
        (updateFirstActive kind (fun a => { a with value := value }) store,
         [])
  else
    match findActive kind store with
    | some _ =>
        (updateFirstActive kind
           (fun a => { a with status := AlertStatus.resolved }) store,
         [AlertEvent.resolvedAt kind value])
    | none => (store, [])

/-- The alert thresholds from config.MonitorConfig (integers in the
configuration, converted to float64 by CheckAlerts). -/
structure MonitorConfig where
  alertCPU : ℤ
  alertMemory : ℤ
  alertDisk : ℤ

/-- SystemMonitor.CheckAlerts: the cpu, memory and disk blocks run in
order on the alert table; events are listed in the order the writes
happen. -/
def checkAlerts (cfg : MonitorConfig) (m : SystemMetrics)
    (store : List Alert) : List Alert × List AlertEvent :=
  let c := checkAlertKind AlertKind.cpu m.cpu (cfg.alertCPU : ℚ) store
  let mm := checkAlertKind AlertKind.memory m.memory (cfg.alertMemory : ℚ) c.1
  let d := checkAlertKind AlertKind.disk m.disk (cfg.alertDisk : ℚ) mm.1
  (d.1, c.2 ++ mm.2 ++ d.2)

/-- Whether a row is an active alert of the given kind. -/
def isActiveOf (kind : AlertKind) (a : Alert) : Bool :=
  decide (a.typ = kind ∧ a.status = AlertStatus.active)

/-- The number of rows of the given kind with status active. -/
def countActive (kind : AlertKind) (store : List Alert) : ℕ :=
  store.countP (isActiveOf kind)

/-- A WebSocket client as the Hub sees it: its buffered Send channel,
modelled by the list of queued messages and the channel capacity (256 in
ServeWebSocket).  A non-blocking send succeeds exactly when the buffer
has free capacity. -/
structure Client where
  id : ℕ
  sendCap : ℕ
  sendQueue : List String
deriving DecidableEq

/-- The broadcast branch of Hub.Run for one message: each registered
client with free queue capacity receives the message on its queue; each
client whose queue is full is closed and deleted from the client set.
Returns the remaining clients and the clients that were closed. -/
def publishOne (message : String) (clients : List Client) :
    List Client × List Client :=
  match clients with
  | [] => ([], [])
  | c :: rest =>
      let r := publishOne message rest
      if c.sendQueue.length < c.sendCap then
        ({ c with sendQueue := c.sendQueue ++ [message] } :: r.1, r.2)
      else
        (r.1, c :: r.2)

/-- Processing a sequence of publish requests, in order, through the
broadcast branch; collects all clients closed along the way. -/
def publishMsgs (msgs : List String) (clients : List Client) :
    List Client × List Client :=
  match msgs with
  | [] => (clients, [])
  | msg :: rest =>
      let r := publishOne msg clients
      let r2 := publishMsgs rest r.1
      (r2.1, r.2 ++ r2.2)

/-- Spec-side formulation for claim C7: the sum of the used percent over
exactly the partitions whose usage lookup succeeds. -/
def sumOk (usage : String → Except String ℚ) : List String → ℚ
  | [] => 0
  | p :: rest =>
      (match usage p with
       | .error _ => 0
       | .ok u => u) + sumOk usage rest

/-- Spec-side formulation for claim C7: how many partitions have a
successful usage lookup. -/
def countOk (usage : String → Except String ℚ) : List String → ℕ
  | [] => 0
  | p :: rest =>
      (match usage p with
       | .error _ => 0
       | .ok _ => 1) + countOk usage rest

/-- The map maintained by the loop of getNetworkSpeed: every current
reading overwrites the entry for its interface, regardless of whether a
rate was derived for it. -/
def insertAll (stats : List IOCountersStat)
    (m : List (String × IOCountersStat)) : List (String × IOCountersStat) :=
  match stats with
  | [] => m
  | s :: rest => insertAll rest (insertStat m s.name s)

/-- The configuration of the claim C3 scenario: cpu threshold 80 (the
memory and disk thresholds are never exceeded by the scenario). -/
def c3Config : MonitorConfig := ⟨80, 80, 90⟩

/-- A metric record of the claim C3 scenario carrying the given cpu
sample value. -/
def c3Metrics (v : ℚ) : SystemMetrics := ⟨0, v, 0, 0, 0, 0⟩

/-- Claim C3 scenario, first evaluation: cpu sample 70 on an empty
store. -/
def c3Step1 : List Alert × List AlertEvent :=
  checkAlerts c3Config (c3Metrics 70) []

/-- Claim C3 scenario, second evaluation: cpu sample 85. -/
def c3Step2 : List Alert × List AlertEvent :=
  checkAlerts c3Config (c3Metrics 85) c3Step1.1

/-- Claim C3 scenario, third evaluation: cpu sample 90. -/
def c3Step3 : List Alert × List AlertEvent :=
  checkAlerts c3Config (c3Metrics 90) c3Step2.1

/-- Claim C3 scenario, fourth evaluation: cpu sample 75. -/
def c3Step4 : List Alert × List AlertEvent :=
  checkAlerts c3Config (c3Metrics 75) c3Step3.1

lemma diskLoop_eq (usage : String → Except String ℚ) (ps : List String) :
    ∀ t c, diskLoop usage ps t c = (t + sumOk usage ps, c + countOk usage ps) := by
  induction ps with
  | nil => intro t c; simp [diskLoop, sumOk, countOk]
  | cons p rest ih =>
      intro t c
      cases h : usage p with
      | error e =>
          simp [diskLoop, sumOk, countOk, h, ih]
      | ok u =>
          simp [diskLoop, sumOk, countOk, h, ih]
          constructor
          · ring
          · omega

lemma sub64_lt (a b : ℕ) : sub64 a b < U64 :=
  Nat.mod_lt _ (by decide)

lemma sub64_of_le {a b : ℕ} (hba : b ≤ a) (ha : a < U64) :
    sub64 a b = a - b := by
  have hb : b < U64 := lt_of_le_of_lt hba ha
  unfold sub64
  rw [Nat.mod_eq_of_lt ha, Nat.mod_eq_of_lt hb]
  have h1 : a + U64 - b = (a - b) + U64 := by omega
  rw [h1, Nat.add_mod_right, Nat.mod_eq_of_lt (by omega)]

lemma sub64_of_lt {a b : ℕ} (hab : a < b) (hb : b < U64) :
    sub64 a b = a + U64 - b := by
  have ha : a < U64 := lt_trans hab hb
  unfold sub64
  rw [Nat.mod_eq_of_lt ha, Nat.mod_eq_of_lt hb, Nat.mod_eq_of_lt (by omega)]

lemma add64_zero {x : ℕ} (h : x < U64) : add64 0 x = x := by
  simp [add64, Nat.mod_eq_of_lt h]

lemma lookup_insertStat (m : List (String × IOCountersStat)) (k : String)
    (v : IOCountersStat) (k' : String) :
    lookupStat (insertStat m k v) k' =
      if k = k' then some v else lookupStat m k' := by
  induction m with
  | nil => simp [insertStat, lookupStat]
  | cons e rest ih =>
      obtain ⟨ek, ev⟩ := e
      by_cases hk : ek = k
      · subst hk
        by_cases h : ek = k' <;> simp [insertStat, lookupStat, h]
      · by_cases h : ek = k'
        · subst h
          have : ¬ k = ek := fun hc => hk hc.symm
          simp [insertStat, lookupStat, hk, this]
        · simp [insertStat, lookupStat, hk, h, ih]

lemma netLoop_fst (stats : List IOCountersStat) :
    ∀ (m : List (String × IOCountersStat)) (u d : ℕ),
      (netLoop stats m u d).1 = insertAll stats m := by
  induction stats with
  | nil => intro m u d; simp [netLoop, insertAll]
  | cons s rest ih =>
      intro m u d
      cases hl : lookupStat m s.name with
      | none => simp [netLoop, hl, insertAll, ih]
      | some lastStat => simp [netLoop, hl, insertAll, ih]

lemma insertAll_lookup_absent (stats : List IOCountersStat) :
    ∀ (m : List (String × IOCountersStat)) (name : String),
      (∀ s ∈ stats, s.name ≠ name) →
      lookupStat (insertAll stats m) name = lookupStat m name := by
  induction stats with
  | nil => intro m name _; rfl
  | cons s rest ih =>
      intro m name h
      have hs : s.name ≠ name := h s (List.mem_cons_self s rest)
      have hrest : ∀ t ∈ rest, t.name ≠ name :=
        fun t ht => h t (List.mem_cons_of_mem s ht)
      rw [insertAll, ih _ _ hrest, lookup_insertStat, if_neg hs]

lemma insertAll_lookup_present (stats : List IOCountersStat) :
    ∀ (m : List (String × IOCountersStat)) (name : String),
      (∃ s ∈ stats, s.name = name) →
      ∃ s', s' ∈ stats ∧ s'.name = name ∧
        lookupStat (insertAll stats m) name = some s' := by
  induction stats with
  | nil => intro m name h; simp at h
  | cons s rest ih =>
      intro m name hex
      by_cases hrest : ∃ t ∈ rest, t.name = name
      · obtain ⟨s', hmem, hname, hlook⟩ :=
          ih (insertStat m s.name s) name hrest
        exact ⟨s', List.mem_cons_of_mem s hmem, hname, by
          rw [insertAll, hlook]⟩
      · have hsname : s.name = name := by
          obtain ⟨t, htmem, htname⟩ := hex
          rcases List.mem_cons.mp htmem with h1 | h2
          · rw [← h1]; exact htname
          · exact absurd ⟨t, h2, htname⟩ hrest
        have habs : ∀ t ∈ rest, t.name ≠ name := by
          intro t ht hn
          exact hrest ⟨t, ht, hn⟩
        refine ⟨s, List.mem_cons_self s rest, hsname, ?_⟩
        rw [insertAll, insertAll_lookup_absent rest _ _ habs,
            lookup_insertStat, if_pos hsname]

lemma countP_updateFirstActive_le (kind : AlertKind) (f : Alert → Alert)
    (p : Alert → Bool) (hf : ∀ a, p (f a) = true → p a = true) :
    ∀ store : List Alert,
      (updateFirstActive kind f store).countP p ≤ store.countP p := by
  intro store
  induction store with
  | nil => simp [updateFirstActive]
  | cons a rest ih =>
      by_cases h : a.typ = kind ∧ a.status = AlertStatus.active
      · rw [updateFirstActive, if_pos h, List.countP_cons, List.countP_cons]
        by_cases hpa : p (f a) = true
        · rw [hpa, hf a hpa]
        · have hfa : p (f a) = false := by
            cases hx : p (f a)
            · rfl
            · exact absurd hx hpa
          rw [hfa]
          have h0 : (if (false : Bool) = true then 1 else 0) = 0 := rfl
          rw [h0]
          exact Nat.le_add_right _ _
      · rw [updateFirstActive, if_neg h, List.countP_cons, List.countP_cons]
        exact Nat.add_le_add_right ih _

lemma findActive_none_count (kind : AlertKind) (store : List Alert)
    (h : findActive kind store = none) : countActive kind store = 0 := by
  induction store with
  | nil => rfl
  | cons a rest ih =>
      by_cases ha : a.typ = kind ∧ a.status = AlertStatus.active
      · rw [findActive, if_pos ha] at h
        exact absurd h (by simp)
      · rw [findActive, if_neg ha] at h
        have hfa : isActiveOf kind a = false := by
          simp [isActiveOf, ha]
        rw [countActive, List.countP_cons, hfa]
        exact ih h

lemma countActive_append_single (kind : AlertKind) (store : List Alert)
    (a : Alert) :
    countActive kind (store ++ [a]) =
      countActive kind store + (if isActiveOf kind a then 1 else 0) := by
  simp [countActive, List.countP_append, List.countP_cons]

lemma checkAlertKind_count_le (kind k : AlertKind) (v t : ℚ)
    (store : List Alert) (h : countActive k store ≤ 1) :
    countActive k (checkAlertKind kind v t store).1 ≤ 1 := by
  unfold checkAlertKind
  by_cases hv : t < v
  · rw [if_pos hv]
    cases hfa : findActive kind store with
    | none =>
        rw [countActive_append_single]
        by_cases hk : isActiveOf k ⟨kind, v, t, AlertStatus.active⟩ = true
        · have hkk : kind = k := by
            simpa [isActiveOf] using hk
          subst hkk
          rw [findActive_none_count kind store hfa, hk]
          simp
        · have : isActiveOf k ⟨kind, v, t, AlertStatus.active⟩ = false := by
            cases hx : isActiveOf k ⟨kind, v, t, AlertStatus.active⟩
            · rfl
            · exact absurd hx hk
          rw [this]
          simpa using h
    | some a =>
        refine le_trans ?_ h
        exact countP_updateFirstActive_le kind _ _
          (fun b hb => by simpa [isActiveOf] using hb) store
  · rw [if_neg hv]
    cases hfa : findActive kind store with
    | some a =>
        refine le_trans ?_ h
        refine countP_updateFirstActive_le kind _ _ (fun b hb => ?_) store
        exfalso
        simp [isActiveOf] at hb
    | none => exact h

/-- Claim C2: CheckAlerts preserves the invariant that at most one
active alert exists per kind: each kind looks up the existing active
alert before deciding to create, update in place, or resolve, so from a
store with at most one active alert per kind, the evaluated store again
has at most one active alert per kind. -/
theorem claim_C2 (cfg : MonitorConfig) (m : SystemMetrics)
    (store : List Alert) (h : ∀ k, countActive k store ≤ 1) :
    ∀ k, countActive k (checkAlerts cfg m store).1 ≤ 1 := by
  intro k
  have h1 := checkAlertKind_count_le AlertKind.cpu k m.cpu
    (cfg.alertCPU : ℚ) store (h k)
  have h2 := checkAlertKind_count_le AlertKind.memory k m.memory
    (cfg.alertMemory : ℚ) _ h1
  have h3 := checkAlertKind_count_le AlertKind.disk k m.disk
    (cfg.alertDisk : ℚ) _ h2
  exact h3

/-- Witness for claim C2: a store holding one active cpu alert, updated
in place by a sample of 85 over threshold 80, still has at most one
active cpu alert. -/
theorem claim_C2_witness :
    countActive AlertKind.cpu
      (checkAlerts ⟨80, 80, 90⟩ ⟨0, 85, 0, 0, 0, 0⟩
        [⟨AlertKind.cpu, 90, 80, AlertStatus.active⟩]).1 ≤ 1 :=
  claim_C2 ⟨80, 80, 90⟩ ⟨0, 85, 0, 0, 0, 0⟩
    [⟨AlertKind.cpu, 90, 80, AlertStatus.active⟩] (by decide)
    AlertKind.cpu

/-- Claim C3: with cpu threshold 80 and samples 70, 85, 90, 75 from an
empty store: no alert after 70; a new active alert with value 85; the
same single alert updated in place to 90 with no state-change event; the
alert flipped to resolved at sample 75; and the whole history emits
exactly one creation event and one resolution event. -/
theorem claim_C3 :
    c3Step1 = ([], []) ∧
    c3Step2 = ([⟨AlertKind.cpu, 85, 80, AlertStatus.active⟩],
               [AlertEvent.created AlertKind.cpu 85]) ∧
    c3Step3 = ([⟨AlertKind.cpu, 90, 80, AlertStatus.active⟩], []) ∧
    c3Step4 = ([⟨AlertKind.cpu, 90, 80, AlertStatus.resolved⟩],
               [AlertEvent.resolvedAt AlertKind.cpu 75]) ∧
    c3Step1.2 ++ c3Step2.2 ++ c3Step3.2 ++ c3Step4.2 =
      [AlertEvent.created AlertKind.cpu 85,
       AlertEvent.resolvedAt AlertKind.cpu 75] := by
  decide

lemma publishOne_eq (msg : String) (clients : List Client) :
    publishOne msg clients =
      ((clients.filter fun c => decide (c.sendQueue.length < c.sendCap)).map
         fun c => { c with sendQueue := c.sendQueue ++ [msg] },
       clients.filter fun c => ! decide (c.sendQueue.length < c.sendCap)) := by
  induction clients with
  | nil => rfl
  | cons c rest ih =>
      by_cases h : c.sendQueue.length < c.sendCap <;>
        simp [publishOne, h, ih]

lemma publishMsgs_single (msgs : List String) :
    ∀ c : Client, c.sendQueue.length + msgs.length ≤ c.sendCap →
      publishMsgs msgs [c] =
        ([{ c with sendQueue := c.sendQueue ++ msgs }], []) := by
  induction msgs with
  | nil => intro c _; simp [publishMsgs]
  | cons msg rest ih =>
      intro c h
      have hlt : c.sendQueue.length < c.sendCap := by
        simp only [List.length_cons] at h
        omega
      have hr := ih { c with sendQueue := c.sendQueue ++ [msg] }
        (by simp only [List.length_append, List.length_cons,
              List.length_nil] at h ⊢; omega)
      simp only [publishMsgs, publishOne, hlt, if_pos, if_true]
      rw [hr]
      simp [List.append_assoc]

/-- Claim C5: in the broadcast branch of Hub.Run, every registered
subscriber with free queue capacity receives the published message by a
non-blocking send and every subscriber with a full queue is closed and
removed immediately; consequently, publishing a nonempty batch of
messages to one subscriber with enough free capacity and one whose
queue is pre-filled to capacity delivers all messages to the first and
unregisters the second. -/
theorem claim_C5 :
    (∀ (msg : String) (clients : List Client),
      publishOne msg clients =
        ((clients.filter fun c =>
            decide (c.sendQueue.length < c.sendCap)).map
           fun c => { c with sendQueue := c.sendQueue ++ [msg] },
         clients.filter fun c =>
           ! decide (c.sendQueue.length < c.sendCap))) ∧
    (∀ (msgs : List String) (fast slow : Client),
      msgs ≠ [] →
      fast.sendQueue.length + msgs.length ≤ fast.sendCap →
      slow.sendQueue.length = slow.sendCap →
      publishMsgs msgs [fast, slow] =
        ([{ fast with sendQueue := fast.sendQueue ++ msgs }], [slow])) := by
  constructor
  · exact publishOne_eq
  · intro msgs fast slow hne hfast hslow
    cases msgs with
    | nil => exact absurd rfl hne
    | cons msg rest =>
        have hflt : fast.sendQueue.length < fast.sendCap := by
          simp only [List.length_cons] at hfast
          omega
        have hsnot : ¬ slow.sendQueue.length < slow.sendCap := by
          omega
        have hr := publishMsgs_single rest
          { fast with sendQueue := fast.sendQueue ++ [msg] }
          (by simp only [List.length_append, List.length_cons,
                List.length_nil] at hfast ⊢; omega)
        simp only [publishMsgs, publishOne, hflt, hsnot, if_pos,
          if_neg, if_true, if_false]
        rw [hr]
        simp [List.append_assoc]

/-- Witness for claim C5: one publish to a free client and a full
client, and a two-message batch to a fast client with four free slots
and a slow client pre-filled to its capacity of two. -/
theorem claim_C5_witness :
    publishOne "m" [⟨1, 4, []⟩, ⟨2, 2, ["a", "b"]⟩] =
      ([⟨1, 4, ["m"]⟩], [⟨2, 2, ["a", "b"]⟩]) ∧
    publishMsgs ["m1", "m2"] [⟨1, 4, []⟩, ⟨2, 2, ["a", "b"]⟩] =
      ([⟨1, 4, ["m1", "m2"]⟩], [⟨2, 2, ["a", "b"]⟩]) :=
  ⟨(claim_C5.1 "m" [⟨1, 4, []⟩, ⟨2, 2, ["a", "b"]⟩]).trans (by decide),
   (claim_C5.2 ["m1", "m2"] ⟨1, 4, []⟩ ⟨2, 2, ["a", "b"]⟩
      (by decide) (by decide) (by decide)).trans (by decide)⟩

lemma goRound_nonneg {x : ℚ} (h : 0 ≤ x) : 0 ≤ goRound x := by
  unfold goRound
  rw [if_neg (not_lt.mpr h)]
  apply Int.fdiv_nonneg
  · exact Rat.num_nonneg.mpr (by linarith)
  · exact_mod_cast Nat.zero_le _

lemma round2_nonneg {x : ℚ} (h : 0 ≤ x) : 0 ≤ round2 x := by
  unfold round2
  apply div_nonneg _ (by norm_num)
  exact_mod_cast goRound_nonneg (by linarith)

lemma countOk_eq_zero (usage : String → Except String ℚ) (ps : List String)
    (h : ∀ p ∈ ps, ∃ e, usage p = Except.error e) : countOk usage ps = 0 := by
  induction ps with
  | nil => rfl
  | cons p rest ih =>
      obtain ⟨e, he⟩ := h p (List.mem_cons_self p rest)
      have := ih (fun q hq => h q (List.mem_cons_of_mem p hq))
      simp [countOk, he, this]

/-- Claim C6: CollectSystemMetrics never fails: for every combination of
sub-measurement outcomes it returns the record with a nil error; every
failed sub-measurement is substituted with 0 while successful ones carry
their measured (rounded) values. -/
theorem claim_C6 (sm : SystemMonitor) (env : MetricsEnv) :
    (collectSystemMetrics sm env).2.1 = none ∧
    (∀ e, env.cpuPercent = Except.error e →
      (collectSystemMetrics sm env).1.cpu = 0) ∧
    (∀ x xs, env.cpuPercent = Except.ok (x :: xs) →
      (collectSystemMetrics sm env).1.cpu = round2 x) ∧
    (∀ e, env.memUsedPercent = Except.error e →
      (collectSystemMetrics sm env).1.memory = 0) ∧
    (∀ u, env.memUsedPercent = Except.ok u →
      (collectSystemMetrics sm env).1.memory = round2 u) ∧
    (∀ e, env.partitions = Except.error e →
      (collectSystemMetrics sm env).1.disk = 0) ∧
    (∀ e, (getNetworkSpeed sm env.ioCounters env.now).1 = Except.error e →
      (collectSystemMetrics sm env).1.upload = 0 ∧
      (collectSystemMetrics sm env).1.download = 0) ∧
    (∀ u d, (getNetworkSpeed sm env.ioCounters env.now).1 = Except.ok (u, d) →
      (collectSystemMetrics sm env).1.upload = u ∧
      (collectSystemMetrics sm env).1.download = d) := by
  refine ⟨rfl, ?_, ?_, ?_, ?_, ?_, ?_, ?_⟩
  · intro e h; simp [collectSystemMetrics, h]
  · intro x xs h; simp [collectSystemMetrics, h]
  · intro e h; simp [collectSystemMetrics, h]
  · intro u h; simp [collectSystemMetrics, h]
  · intro e h; simp [collectSystemMetrics, h]
  · intro e h; simp [collectSystemMetrics, h]
  · intro u d h; simp [collectSystemMetrics, h]

/-- Witness for claim C6 at a concrete environment where every sensor
fails: the error returned is nil and the CPU field degrades to 0. -/
theorem claim_C6_witness :
    (collectSystemMetrics ⟨[], 0⟩
        ⟨Except.error "cpu down", Except.error "mem down",
         Except.error "disk down", fun _ => Except.error "usage down",
         Except.error "net down", 1⟩).2.1 = none ∧
    (collectSystemMetrics ⟨[], 0⟩
        ⟨Except.error "cpu down", Except.error "mem down",
         Except.error "disk down", fun _ => Except.error "usage down",
         Except.error "net down", 1⟩).1.cpu = 0 :=
  ⟨(claim_C6 ⟨[], 0⟩
      ⟨Except.error "cpu down", Except.error "mem down",
       Except.error "disk down", fun _ => Except.error "usage down",
       Except.error "net down", 1⟩).1,
   (claim_C6 ⟨[], 0⟩
      ⟨Except.error "cpu down", Except.error "mem down",
       Except.error "disk down", fun _ => Except.error "usage down",
       Except.error "net down", 1⟩).2.1 "cpu down" rfl⟩

/-- Claim C7: when the partition listing succeeds and at least one
partition has a successful usage lookup, the Disk field is the rounded
arithmetic mean of the used percent over exactly the successful
partitions; erroring partitions are skipped, not counted as zero. -/
theorem claim_C7 (sm : SystemMonitor) (env : MetricsEnv) (ps : List String)
    (hps : env.partitions = Except.ok ps)
    (hn : 0 < countOk env.diskUsage ps) :
    (collectSystemMetrics sm env).1.disk =
      round2 (sumOk env.diskUsage ps / (countOk env.diskUsage ps : ℚ)) := by
  simp [collectSystemMetrics, hps, diskLoop_eq, hn]

/-- Witness for claim C7: two partitions of which one errors; the mean
is taken over the single successful one. -/
theorem claim_C7_witness :
    (collectSystemMetrics ⟨[], 0⟩
        ⟨Except.error "cpu down", Except.error "mem down",
         Except.ok ["/", "/boot"],
         fun p => if p = "/" then Except.ok 40 else Except.error "usage down",
         Except.error "net down", 1⟩).1.disk =
      round2 (sumOk
          (fun p => if p = "/" then Except.ok 40 else Except.error "usage down")
          ["/", "/boot"] /
        (countOk
          (fun p => if p = "/" then Except.ok 40 else Except.error "usage down")
          ["/", "/boot"] : ℚ)) :=
  claim_C7 ⟨[], 0⟩
    ⟨Except.error "cpu down", Except.error "mem down",
     Except.ok ["/", "/boot"],
     fun p => if p = "/" then Except.ok 40 else Except.error "usage down",
     Except.error "net down", 1⟩
    ["/", "/boot"] rfl (by decide)

/-- Claim C10: when the partition listing succeeds but every single
usage lookup fails, the Disk field is left at 0: the mean is guarded by
a positive partition count and the division never runs with divisor 0. -/
theorem claim_C10 (sm : SystemMonitor) (env : MetricsEnv) (ps : List String)
    (hps : env.partitions = Except.ok ps)
    (hall : ∀ p ∈ ps, ∃ e, env.diskUsage p = Except.error e) :
    (collectSystemMetrics sm env).1.disk = 0 := by
  simp [collectSystemMetrics, hps, diskLoop_eq,
        countOk_eq_zero env.diskUsage ps hall]

/-- Witness for claim C10: one partition whose usage lookup fails. -/
theorem claim_C10_witness :
    (collectSystemMetrics ⟨[], 0⟩
        ⟨Except.error "cpu down", Except.error "mem down",
         Except.ok ["/"], fun _ => Except.error "usage down",
         Except.error "net down", 1⟩).1.disk = 0 :=
  claim_C10 ⟨[], 0⟩
    ⟨Except.error "cpu down", Except.error "mem down",
     Except.ok ["/"], fun _ => Except.error "usage down",
     Except.error "net down", 1⟩
    ["/"] rfl (fun _ _ => ⟨"usage down", rfl⟩)

/-- Claim C8: with zero elapsed time between rate samples (and a
successful counter read), getNetworkSpeed fails with the
degenerate-interval error, and the collection cycle reports Upload and
Download as 0 while the overall sample still succeeds with a nil
error. -/
theorem claim_C8 (sm : SystemMonitor) (env : MetricsEnv)
    (stats : List IOCountersStat)
    (hio : env.ioCounters = Except.ok stats)
    (hz : env.now = sm.lastNetworkTime) :
    (getNetworkSpeed sm env.ioCounters env.now).1 =
      Except.error "time difference is zero" ∧
    (collectSystemMetrics sm env).1.upload = 0 ∧
    (collectSystemMetrics sm env).1.download = 0 ∧
    (collectSystemMetrics sm env).2.1 = none := by
  have hspeed : (getNetworkSpeed sm env.ioCounters env.now).1 =
      Except.error "time difference is zero" := by
    simp [getNetworkSpeed, hio, hz]
  refine ⟨hspeed, ?_, ?_, rfl⟩
  · simp [collectSystemMetrics, hio, hz, getNetworkSpeed]
  · simp [collectSystemMetrics, hio, hz, getNetworkSpeed]

/-- Witness for claim C8: a concrete monitor whose previous timestamp
equals the current time. -/
theorem claim_C8_witness :
    (getNetworkSpeed ⟨[("eth0", ⟨"eth0", 10, 10⟩)], 5⟩
        (Except.ok [⟨"eth0", 20, 20⟩]) 5).1 =
      Except.error "time difference is zero" ∧
    (collectSystemMetrics ⟨[("eth0", ⟨"eth0", 10, 10⟩)], 5⟩
        ⟨Except.ok [12], Except.ok 34, Except.error "disk down",
         fun _ => Except.error "usage down",
         Except.ok [⟨"eth0", 20, 20⟩], 5⟩).1.upload = 0 :=
  ⟨(claim_C8 ⟨[("eth0", ⟨"eth0", 10, 10⟩)], 5⟩
      ⟨Except.ok [12], Except.ok 34, Except.error "disk down",
       fun _ => Except.error "usage down",
       Except.ok [⟨"eth0", 20, 20⟩], 5⟩
      [⟨"eth0", 20, 20⟩] rfl rfl).1,
   (claim_C8 ⟨[("eth0", ⟨"eth0", 10, 10⟩)], 5⟩
      ⟨Except.ok [12], Except.ok 34, Except.error "disk down",
       fun _ => Except.error "usage down",
       Except.ok [⟨"eth0", 20, 20⟩], 5⟩
      [⟨"eth0", 20, 20⟩] rfl rfl).2.1⟩

/-- Claim C4: for two consecutive samples of the same interface with
non-decreasing byte counters and positive elapsed time, the derived
rates equal Δbytes / (1048576 × Δt) rounded to two decimals, in MB/s. -/
theorem claim_C4 (cur prev : IOCountersStat) (t0 now : ℚ)
    (hs : prev.bytesSent ≤ cur.bytesSent)
    (hr : prev.bytesRecv ≤ cur.bytesRecv)
    (hcs : cur.bytesSent < U64) (hcr : cur.bytesRecv < U64)
    (ht : t0 < now) :
    (getNetworkSpeed ⟨[(cur.name, prev)], t0⟩ (Except.ok [cur]) now).1 =
      Except.ok
        (round2 (((cur.bytesSent - prev.bytesSent : ℕ) : ℚ) /
           (1048576 * (now - t0))),
         round2 (((cur.bytesRecv - prev.bytesRecv : ℕ) : ℚ) /
           (1048576 * (now - t0)))) := by
  have hne : ¬ (now - t0 = 0) := sub_ne_zero_of_ne (ne_of_gt ht)
  have h1 : lookupStat [(cur.name, prev)] cur.name = some prev := by
    simp [lookupStat]
  simp only [getNetworkSpeed, netLoop, h1, hne, if_false]
  rw [add64_zero (sub64_lt _ _), add64_zero (sub64_lt _ _),
      sub64_of_le hs hcs, sub64_of_le hr hcr]
  norm_num

/-- Witness for claim C4: 3 MiB sent and 5 MiB received over 2 seconds
yield 1.5 MB/s upload and 2.5 MB/s download. -/
theorem claim_C4_witness :
    (getNetworkSpeed ⟨[("eth0", ⟨"eth0", 1000, 2000⟩)], 0⟩
        (Except.ok [⟨"eth0", 3146728, 5244880⟩]) 2).1 =
      Except.ok ((3 / 2 : ℚ), (5 / 2 : ℚ)) :=
  (claim_C4 ⟨"eth0", 3146728, 5244880⟩ ⟨"eth0", 1000, 2000⟩ 0 2
      (by decide) (by decide) (by decide) (by decide) (by decide)).trans
    (by decide)

/-- Counterexample for claim C1 as stated: with the interface byte
counter decreasing from 100 to 50 over one second, getNetworkSpeed does
not derive a zero rate; the Go uint64 subtraction wraps and the derived
rate is 2^44 MB/s. -/
theorem claim_C1_counterexample :
    (getNetworkSpeed ⟨[("eth0", ⟨"eth0", 100, 100⟩)], 0⟩
        (Except.ok [⟨"eth0", 50, 50⟩]) 1).1 =
      Except.ok ((17592186044416 : ℚ), (17592186044416 : ℚ)) ∧
    (17592186044416 : ℚ) ≠ 0 := by
  constructor
  · decide
  · decide

/-- Claim C1 amended: when a cumulative byte counter decreases between
two consecutive samples of the same interface and elapsed time is
positive, the negative delta is not clamped to zero: the uint64
subtraction wraps modulo 2^64, so the derived rate is the rounded value
of (cur + 2^64 - prev) / (1048576 × Δt) — never negative, but nonzero
rather than zero. -/
theorem claim_C1_amended (cur prev : IOCountersStat) (t0 now : ℚ)
    (hds : cur.bytesSent < prev.bytesSent)
    (hdr : cur.bytesRecv < prev.bytesRecv)
    (hps : prev.bytesSent < U64) (hpr : prev.bytesRecv < U64)
    (ht : t0 < now) :
    (getNetworkSpeed ⟨[(cur.name, prev)], t0⟩ (Except.ok [cur]) now).1 =
      Except.ok
        (round2 (((cur.bytesSent + U64 - prev.bytesSent : ℕ) : ℚ) /
           (1048576 * (now - t0))),
         round2 (((cur.bytesRecv + U64 - prev.bytesRecv : ℕ) : ℚ) /
           (1048576 * (now - t0)))) ∧
    0 ≤ round2 (((cur.bytesSent + U64 - prev.bytesSent : ℕ) : ℚ) /
          (1048576 * (now - t0))) ∧
    0 ≤ round2 (((cur.bytesRecv + U64 - prev.bytesRecv : ℕ) : ℚ) /
          (1048576 * (now - t0))) := by
  have hne : ¬ (now - t0 = 0) := sub_ne_zero_of_ne (ne_of_gt ht)
  have h1 : lookupStat [(cur.name, prev)] cur.name = some prev := by
    simp [lookupStat]
  have hpos : (0 : ℚ) < 1048576 * (now - t0) := by
    have : (0 : ℚ) < now - t0 := sub_pos.mpr ht
    positivity
  refine ⟨?_, ?_, ?_⟩
  · simp only [getNetworkSpeed, netLoop, h1, hne, if_false]
    rw [add64_zero (sub64_lt _ _), add64_zero (sub64_lt _ _),
        sub64_of_lt hds hps, sub64_of_lt hdr hpr]
    norm_num
  · exact round2_nonneg (div_nonneg (Nat.cast_nonneg _) hpos.le)
  · exact round2_nonneg (div_nonneg (Nat.cast_nonneg _) hpos.le)

/-- Witness for claim C1 amended, at the counterexample input: the
wrapped delta 50 → 2^64 - 50 gives rate 2^44 MB/s, which is
nonnegative. -/
theorem claim_C1_witness :
    (getNetworkSpeed ⟨[("eth1", ⟨"eth1", 100, 100⟩)], 0⟩
        (Except.ok [⟨"eth1", 50, 50⟩]) 1).1 =
      Except.ok
        (round2 (((50 + U64 - 100 : ℕ) : ℚ) / (1048576 * (1 - 0))),
         round2 (((50 + U64 - 100 : ℕ) : ℚ) / (1048576 * (1 - 0)))) ∧
    0 ≤ round2 (((50 + U64 - 100 : ℕ) : ℚ) / (1048576 * (1 - 0))) ∧
    0 ≤ round2 (((50 + U64 - 100 : ℕ) : ℚ) / (1048576 * (1 - 0))) :=
  claim_C1_amended ⟨"eth1", 50, 50⟩ ⟨"eth1", 100, 100⟩ 0 1
    (by decide) (by decide) (by decide) (by decide) (by decide)

/-- Counterexample for claim C9 as stated: a successful rate-computing
call does not unconditionally replace the previous-sample map.  With a
stored baseline for interface eth1 and a current reading containing only
eth0, the call succeeds, yet the stale eth1 baseline from before the
call is still stored afterwards. -/
theorem claim_C9_counterexample :
    (getNetworkSpeed ⟨[("eth1", ⟨"eth1", 7, 7⟩)], 0⟩
        (Except.ok [⟨"eth0", 5, 5⟩]) 1).1 = Except.ok ((0 : ℚ), (0 : ℚ)) ∧
    lookupStat
        (getNetworkSpeed ⟨[("eth1", ⟨"eth1", 7, 7⟩)], 0⟩
          (Except.ok [⟨"eth0", 5, 5⟩]) 1).2.lastNetworkStats "eth1" =
      some ⟨"eth1", 7, 7⟩ := by
  constructor
  · decide
  · decide

/-- Claim C9 amended: after every rate-computing call the
previous-timestamp is replaced with the current time and the entry of
every interface present in the current reading is overwritten with a
current stat of that interface; entries of interfaces absent from the
current reading are retained unchanged, keeping their stale baseline. -/
theorem claim_C9_amended (sm : SystemMonitor)
    (stats : List IOCountersStat) (now : ℚ)
    (h : now ≠ sm.lastNetworkTime) :
    (getNetworkSpeed sm (Except.ok stats) now).2.lastNetworkTime = now ∧
    (∀ name, (∀ s ∈ stats, s.name ≠ name) →
      lookupStat
          (getNetworkSpeed sm (Except.ok stats) now).2.lastNetworkStats
          name =
        lookupStat sm.lastNetworkStats name) ∧
    (∀ s ∈ stats, ∃ s', s' ∈ stats ∧ s'.name = s.name ∧
      lookupStat
          (getNetworkSpeed sm (Except.ok stats) now).2.lastNetworkStats
          s.name =
        some s') := by
  have hne : ¬ (now - sm.lastNetworkTime = 0) := sub_ne_zero_of_ne h
  refine ⟨?_, ?_, ?_⟩
  · simp [getNetworkSpeed, hne]
  · intro name habs
    simp only [getNetworkSpeed, hne, if_false]
    rw [netLoop_fst, insertAll_lookup_absent stats _ _ habs]
  · intro s hs
    simp only [getNetworkSpeed, hne, if_false]
    obtain ⟨s', hmem, hname, hlook⟩ :=
      insertAll_lookup_present stats sm.lastNetworkStats s.name
        ⟨s, hs, rfl⟩
    exact ⟨s', hmem, hname, by rw [netLoop_fst]; exact hlook⟩

/-- Witness for claim C9 amended: timestamp replaced, present interface
eth0 overwritten, absent interface eth1 retained. -/
theorem claim_C9_witness :
    (getNetworkSpeed ⟨[("eth1", ⟨"eth1", 7, 7⟩)], 0⟩
        (Except.ok [⟨"eth0", 5, 5⟩]) 1).2.lastNetworkTime = 1 ∧
    lookupStat
        (getNetworkSpeed ⟨[("eth1", ⟨"eth1", 7, 7⟩)], 0⟩
          (Except.ok [⟨"eth0", 5, 5⟩]) 1).2.lastNetworkStats "eth1" =
      lookupStat [("eth1", ⟨"eth1", 7, 7⟩)] "eth1" :=
  ⟨(claim_C9_amended ⟨[("eth1", ⟨"eth1", 7, 7⟩)], 0⟩ [⟨"eth0", 5, 5⟩] 1
      (by decide)).1,
   (claim_C9_amended ⟨[("eth1", ⟨"eth1", 7, 7⟩)], 0⟩ [⟨"eth0", 5, 5⟩] 1
      (by decide)).2.1 "eth1" (by decide)⟩

end ServerMonitor
